import Mathlib

set_option maxHeartbeats 1000000

/-
Shallow embedding of the MecaFlow-Learn geometric comparison engine
(src/services/occComparison.py, src/services/comparisonService.py,
src/services/occCompareDXF.py and the orchestrator wrapper in src/main.py).

Real numbers of the Python code are modelled as exact rationals; the
external OpenCascade / FreeCAD kernels are modelled by records carrying the
values those kernels would compute (volume, area, centre of mass, bounding
box, topological counts, inertia data), while every formula that lives in
the repository's own code is translated line by line.
-/

namespace MecaFlow

/-- Banker-style rounding of a rational, modelling Python's builtin round():
ties round to the even integer. -/
def pyRound (x : ℚ) : ℤ :=
  let f := ⌊x⌋
  let r := x - (f : ℚ)
  if r < 1/2 then f
  else if 1/2 < r then f + 1
  else if f % 2 = 0 then f else f + 1

/-- Rounding to n decimal places, modelling Python's round(x, n). -/
def rndTo (n : ℕ) (x : ℚ) : ℚ := ((pyRound (x * 10 ^ n) : ℤ) : ℚ) / 10 ^ n

/-- Python round(x, 1). -/
def rnd1 (x : ℚ) : ℚ := rndTo 1 x

/-- Python round(x, 2). -/
def rnd2 (x : ℚ) : ℚ := rndTo 2 x

/-- Python round(x, 3). -/
def rnd3 (x : ℚ) : ℚ := rndTo 3 x

/-- Componentwise round(x, 3) on a coordinate triple. -/
def rnd3T (t : ℚ × ℚ × ℚ) : ℚ × ℚ × ℚ := (rnd3 t.1, rnd3 t.2.1, rnd3 t.2.2)

/-- Relative percentage score, occComparison.py lines 253-254 / 288 / 299-300 /
307-308: 100 - min(100, 100*abs(s-r) / (abs(r) if abs(r) > 1e-6 else 1)). -/
def pctScore (s r : ℚ) : ℚ :=
  100 - min 100 (100 * |s - r| / (if 1/1000000 < |r| then |r| else 1))

/-- Relative pass flag, occComparison.py lines 248-250 / 286 / 298 / 329:
abs(s - r) <= tol * max(abs(r), 1). -/
def okRel (s r tol : ℚ) : Bool := decide (|s - r| ≤ tol * max |r| 1)

/-- Topological counts record, the "topology" dict of occComparison.py. -/
structure Topology where
  faces : ℕ
  edges : ℕ
  vertices : ℕ
deriving DecidableEq, Repr

/-- Axis-aligned bounding box as returned by Bnd_Box.Get(). -/
structure BBox where
  xmin : ℚ
  ymin : ℚ
  zmin : ℚ
  xmax : ℚ
  ymax : ℚ
  zmax : ℚ
deriving DecidableEq, Repr

/-- Union of two bounding boxes; models repeated brepbndlib.Add into one
Bnd_Box (occComparison.py lines 169-172). -/
def bbUnion (a b : BBox) : BBox :=
  ⟨min a.xmin b.xmin, min a.ymin b.ymin, min a.zmin b.zmin,
   max a.xmax b.xmax, max a.ymax b.ymax, max a.zmax b.zmax⟩

/-- Extents of a bounding box: (xmax-xmin, ymax-ymin, zmax-zmin). -/
def bbDims (b : BBox) : ℚ × ℚ × ℚ := (b.xmax - b.xmin, b.ymax - b.ymin, b.zmax - b.zmin)

/-- Raw kernel data of one solid: the quantities OpenCascade computes for it
(GProp volume/centre of mass, bounding box, counts, inertia eigenvalues). -/
structure SolidRaw where
  volume : ℚ
  com : ℚ × ℚ × ℚ
  bbox : BBox
  faces : ℕ
  edges : ℕ
  vertices : ℕ
  eigvals : List ℚ
deriving DecidableEq, Repr

/-- Raw kernel data of one shell or face: surface GProp mass (= area), centre
of mass, bounding box, counts and the diagonal of the inertia matrix. -/
structure ShellRaw where
  area : ℚ
  com : ℚ × ℚ × ℚ
  bbox : BBox
  faces : ℕ
  edges : ℕ
  vertices : ℕ
  inertiaDiag : ℚ × ℚ × ℚ
deriving DecidableEq, Repr

/-- A shape as seen through the kernel enumerations used by the code:
its solids, shells and faces in traversal order. -/
structure Shape where
  solids : List SolidRaw
  shells : List ShellRaw
  faces : List ShellRaw
deriving DecidableEq, Repr

/-- Property dict of get_solid_properties (occComparison.py lines 60-110). -/
structure SolidProps where
  volume : ℚ
  center_of_mass : ℚ × ℚ × ℚ
  dimensions : ℚ × ℚ × ℚ
  topology : Topology
  principal_moments : List ℚ
deriving DecidableEq, Repr

/-- The "type" value of get_shell_properties: "shell" or "surface". -/
inductive ShellKind where
  | shell
  | surface
deriving DecidableEq, Repr

/-- Property dict returned by get_shape_properties: volume is present exactly
for solids, surface_area exactly for shells/surfaces (optional fields model
the presence or absence of the dict keys). -/
structure ShapeProps where
  volume : Option ℚ
  surface_area : Option ℚ
  center_of_mass : ℚ × ℚ × ℚ
  dimensions : ℚ × ℚ × ℚ
  topology : Topology
  shellKind : Option ShellKind
  principal_moments : List ℚ
deriving DecidableEq, Repr

/-- get_solid_properties, occComparison.py lines 60-110: rounds volume,
centre of mass, extents and the absolute inertia eigenvalues to 3 decimals. -/
def get_solid_properties (s : SolidRaw) : SolidProps :=
  { volume := rnd3 s.volume
  , center_of_mass := rnd3T s.com
  , dimensions := rnd3T (bbDims s.bbox)
  , topology := ⟨s.faces, s.edges, s.vertices⟩
  , principal_moments := s.eigvals.map (fun v => rnd3 |v|) }

/-- View of a solid property dict as a shape property dict (same dict in
Python; the "volume" key is present, "surface_area" and "type" are not). -/
def solidShapeProps (p : SolidProps) : ShapeProps :=
  { volume := some p.volume
  , surface_area := none
  , center_of_mass := p.center_of_mass
  , dimensions := p.dimensions
  , topology := p.topology
  , shellKind := none
  , principal_moments := p.principal_moments }

/-- get_shell_properties, occComparison.py lines 112-145: the principal
moments are read directly off the inertia matrix diagonal. -/
def get_shell_properties (sh : ShellRaw) : ShapeProps :=
  { volume := none
  , surface_area := some (rnd3 sh.area)
  , center_of_mass := rnd3T sh.com
  , dimensions := rnd3T (bbDims sh.bbox)
  , topology := ⟨sh.faces, sh.edges, sh.vertices⟩
  , shellKind := some (if 1 < sh.faces then ShellKind.shell else ShellKind.surface)
  , principal_moments := [rnd3 sh.inertiaDiag.1, rnd3 sh.inertiaDiag.2.1, rnd3 sh.inertiaDiag.2.2] }

/-- Multi-shell branch of get_shape_properties (occComparison.py lines
163-199).  One GProp_GProps object is reused across the loop and each
brepgprop_SurfaceProperties call reinitialises it to the current shell's
properties, so total_area accumulates the per-shell areas while the centre
of mass read after the loop is that of the last shell.  The bounding box is
the union of all shell boxes, the counts are summed, and the principal
moments are set to the rounded total area repeated three times. -/
def multiShellProps (sh1 : ShellRaw) (rest : List ShellRaw) : ShapeProps :=
  let shells := sh1 :: rest
  let bbox := rest.foldl (fun b s => bbUnion b s.bbox) sh1.bbox
  let total_area := shells.foldl (fun a s => a + s.area) (0 : ℚ)
  let total_faces := shells.foldl (fun a s => a + s.faces) 0
  let total_edges := shells.foldl (fun a s => a + s.edges) 0
  let total_vertices := shells.foldl (fun a s => a + s.vertices) 0
  let lastShell := rest.getLastD sh1
  { volume := none
  , surface_area := some (rnd3 total_area)
  , center_of_mass := rnd3T lastShell.com
  , dimensions := rnd3T (bbDims bbox)
  , topology := ⟨total_faces, total_edges, total_vertices⟩
  , shellKind := some ShellKind.shell
  , principal_moments := [rnd3 total_area, rnd3 total_area, rnd3 total_area] }

/-- Errors raised by the engine: a STEP read failure (read_step_file line 20),
the no-geometry ValueError (get_shape_properties line 206), and the KeyError
hit when a mixed solid/shell pair reaches the surface-area branch. -/
inductive CmpError where
  | fileRead
  | noGeometry
  | keyError
deriving DecidableEq, Repr

/-- get_shape_properties fallback chain, occComparison.py lines 150-206:
first solid, else single shell, else aggregated multi-shell, else first
face, else the no-geometry error. -/
def get_shape_properties (sh : Shape) : Except CmpError ShapeProps :=
  match sh.solids with
  | s :: _ => .ok (solidShapeProps (get_solid_properties s))
  | [] =>
    match sh.shells with
    | [sh1] => .ok (get_shell_properties sh1)
    | sh1 :: sh2 :: rest => .ok (multiShellProps sh1 (sh2 :: rest))
    | [] =>
      match sh.faces with
      | f :: _ => .ok (get_shell_properties f)
      | [] => .error CmpError.noGeometry

/-- One feedback entry of the part comparison: the "ok" flag (None in the
FreeCAD path when moments are not applicable) and the feature score. -/
structure FeatEntry where
  ok : Option Bool
  score : ℚ
deriving DecidableEq, Repr

/-- Outcome of the volume-or-area block of compare_models (lines 296-319):
which key was produced, the pass flag, the value stored in the feedback dict
(rounded to 1 decimal in the shell branch only) and the value added to the
running score (never rounded). -/
structure MeasureOut where
  isVolume : Bool
  ok : Bool
  stored : ℚ
  internal : ℚ
deriving DecidableEq, Repr

/-- Summed absolute topology-count difference used by the shell bonus,
occComparison.py lines 311-312. -/
def topoDiff (a b : Topology) : ℤ :=
  |(a.faces : ℤ) - (b.faces : ℤ)| + |(a.edges : ℤ) - (b.edges : ℤ)| +
    |(a.vertices : ℤ) - (b.vertices : ℤ)|

/-- Volume-or-area block of compare_models, occComparison.py lines 296-319.
If both property dicts carry "volume" the volumes are compared; otherwise
the surface areas are read (a missing "surface_area" key on either side is
the Python KeyError of the mixed solid/shell case), the pass flag uses the
widened tolerance tol*1.5, and a summed topology difference of at most 6
scales the score by 1.1 capped at 100. -/
def measureOut (sub ref : ShapeProps) (tol : ℚ) : Except CmpError MeasureOut :=
  match sub.volume, ref.volume with
  | some vs, some vr =>
    .ok { isVolume := true, ok := okRel vs vr tol
        , stored := pctScore vs vr, internal := pctScore vs vr }
  | _, _ =>
    match sub.surface_area with
    | none => .error CmpError.keyError
    | some sa =>
      match ref.surface_area with
      | none => .error CmpError.keyError
      | some ra =>
        let base := pctScore sa ra
        let mOk := decide (|sa - ra| ≤ (tol * (3/2)) * max |ra| 1)
        let msc := if topoDiff sub.topology ref.topology ≤ 6 then min 100 (base * (11/10)) else base
        .ok { isVolume := false, ok := mOk, stored := rnd1 msc, internal := msc }

/-- Mean of the three per-axis dimension percentages (lines 288-290). -/
def dimsScoreVal (sub ref : ShapeProps) : ℚ :=
  (pctScore sub.dimensions.1 ref.dimensions.1 +
   pctScore sub.dimensions.2.1 ref.dimensions.2.1 +
   pctScore sub.dimensions.2.2 ref.dimensions.2.2) / 3

/-- Conjunction of the three per-axis dimension pass flags (lines 286-287). -/
def dimsOkAll (sub ref : ShapeProps) (tol : ℚ) : Bool :=
  okRel sub.dimensions.1 ref.dimensions.1 tol &&
  okRel sub.dimensions.2.1 ref.dimensions.2.1 tol &&
  okRel sub.dimensions.2.2 ref.dimensions.2.2 tol

/-- Binary topology score of the part comparison (lines 322-323). -/
def topoScoreVal (sub ref : ShapeProps) : ℚ :=
  if sub.topology = ref.topology then 100 else 0

/-- Principal-moments pass flag: all zipped components within tolerance
(lines 329-330). -/
def pmOkVal (sub ref : ShapeProps) (tol : ℚ) : Bool :=
  (sub.principal_moments.zip ref.principal_moments).all (fun p => okRel p.1 p.2 tol)

/-- Binary principal-moments score of the part comparison (line 331). -/
def pmScoreVal (sub ref : ShapeProps) (tol : ℚ) : ℚ :=
  if pmOkVal sub ref tol then 100 else 0

/-- Feedback dict of the part branch of compare_models.  Exactly one of the
"volume" / "surface_area" keys is present, mirroring the Python dict. -/
structure PartFeedback where
  dimensions : FeatEntry
  volume : Option FeatEntry
  surface_area : Option FeatEntry
  topology : FeatEntry
  principal_moments : FeatEntry
  global_score : ℚ
  success : Bool
deriving DecidableEq, Repr

/-- Part branch of compare_models, occComparison.py lines 277-348.  Four
features are accumulated (dimensions, volume-or-area, topology, principal
moments), each incrementing the total by 1, so the global score is the
rounded mean over 4; the success threshold is tiered by tolerance. -/
def comparePartMode (sub ref : ShapeProps) (tol : ℚ) : Except CmpError PartFeedback :=
  match measureOut sub ref tol with
  | .error e => .error e
  | .ok m =>
    let dScore := dimsScoreVal sub ref
    let tScore := topoScoreVal sub ref
    let pOk := pmOkVal sub ref tol
    let pScore := pmScoreVal sub ref tol
    let g := rnd1 ((dScore + m.internal + tScore + pScore) / 4)
    .ok
      { dimensions := ⟨some (dimsOkAll sub ref tol), dScore⟩
      , volume := if m.isVolume then some ⟨some m.ok, m.stored⟩ else none
      , surface_area := if m.isVolume then none else some ⟨some m.ok, m.stored⟩
      , topology := ⟨some (decide (sub.topology = ref.topology)), tScore⟩
      , principal_moments := ⟨some pOk, pScore⟩
      , global_score := g
      , success :=
          if 5/100 ≤ tol then decide (70 ≤ g)
          else if 1/100 ≤ tol then decide (75 ≤ g)
          else decide (80 ≤ g) }

/-- Per-pair match record of the assembly branch (lines 256-264). -/
structure MatchRec where
  index : ℕ
  volume_ok : Bool
  volume_score : ℚ
  center_of_mass_ok : Bool
  center_of_mass_sub : ℚ × ℚ × ℚ
  center_of_mass_ref : ℚ × ℚ × ℚ
  topology_match : Bool
deriving DecidableEq, Repr

/-- Per-pair checks of the assembly branch, occComparison.py lines 244-264. -/
def mkMatch (tol : ℚ) (i : ℕ) (sp rp : SolidProps) : MatchRec :=
  { index := i
  , volume_ok := okRel sp.volume rp.volume tol
  , volume_score := rnd1 (pctScore sp.volume rp.volume)
  , center_of_mass_ok :=
      okRel sp.center_of_mass.1 rp.center_of_mass.1 tol &&
      okRel sp.center_of_mass.2.1 rp.center_of_mass.2.1 tol &&
      okRel sp.center_of_mass.2.2 rp.center_of_mass.2.2 tol
  , center_of_mass_sub := sp.center_of_mass
  , center_of_mass_ref := rp.center_of_mass
  , topology_match := decide (sp.topology = rp.topology) }

/-- The enumerate(zip(sub_solids, ref_solids)) loop of the assembly branch:
positional pairing truncated to the shorter list. -/
def buildMatches (tol : ℚ) : ℕ → List SolidRaw → List SolidRaw → List MatchRec
  | _, [], _ => []
  | _, _ :: _, [] => []
  | i, s :: ss, r :: rs =>
      mkMatch tol i (get_solid_properties s) (get_solid_properties r) ::
        buildMatches tol (i + 1) ss rs

/-- All three per-pair sub-checks pass (line 267). -/
def matchAllOk (m : MatchRec) : Bool :=
  m.volume_ok && m.center_of_mass_ok && m.topology_match

/-- Assembly feedback dict (num_components block, per-pair list, global
score and success flag). -/
structure AsmFeedback where
  num_submitted : ℕ
  num_reference : ℕ
  num_ok : Bool
  components_match : List MatchRec
  global_score : ℚ
  success : Bool
deriving DecidableEq, Repr

/-- Assembly branch of compare_models, occComparison.py lines 232-272. -/
def compareAssembly (subs refs : List SolidRaw) (tol : ℚ) : AsmFeedback :=
  let ms := buildMatches tol 0 subs refs
  let nOk := (ms.filter matchAllOk).length
  let g := rnd1 ((nOk : ℚ) / ((max ms.length 1 : ℕ) : ℚ) * 100)
  { num_submitted := subs.length
  , num_reference := refs.length
  , num_ok := decide (subs.length = refs.length)
  , components_match := ms
  , global_score := g
  , success := decide (80 ≤ g) && decide (subs.length = refs.length) }

/-- Result of compare_models: either the part feedback or the assembly
feedback dict. -/
inductive ModelOutput where
  | part (fb : PartFeedback)
  | assembly (fb : AsmFeedback)
deriving DecidableEq, Repr

/-- The "success" entry of either feedback dict. -/
def ModelOutput.successFlag : ModelOutput → Bool
  | .part fb => fb.success
  | .assembly fb => fb.success

/-- The "global_score" entry of either feedback dict. -/
def ModelOutput.globalScoreVal : ModelOutput → ℚ
  | .part fb => fb.global_score
  | .assembly fb => fb.global_score

/-- compare_models, occComparison.py lines 212-348: assembly mode exactly
when either side enumerates more than one solid, otherwise part mode on the
extracted shape properties. -/
def compareModels (sub ref : Shape) (tol : ℚ) : Except CmpError ModelOutput :=
  if 1 < ref.solids.length ∨ 1 < sub.solids.length then
    .ok (ModelOutput.assembly (compareAssembly sub.solids ref.solids tol))
  else
    match get_shape_properties sub with
    | .error e => .error e
    | .ok sp =>
      match get_shape_properties ref with
      | .error e => .error e
      | .ok rp =>
        match comparePartMode sp rp tol with
        | .error e => .error e
        | .ok fb => .ok (ModelOutput.part fb)

/-- read_step_file, occComparison.py lines 16-22: a file the kernel cannot
read (modelled as none) raises the STEP read error. -/
def read_step_file : Option Shape → Except CmpError Shape
  | none => .error CmpError.fileRead
  | some s => .ok s

/-- Message text of each engine error (read_step_file line 20,
get_shape_properties line 206, and Python's str of a KeyError). -/
def errMessage : CmpError → String
  | CmpError.fileRead => "Error reading STEP file"
  | CmpError.noGeometry => "No valid geometry (solid, shell, or face) found in shape."
  | CmpError.keyError => "KeyError: surface_area"

/-- What the orchestrator's comparison step hands back: either the feedback
dict of compare_models or the error record built in the except branch. -/
inductive CadResult where
  | result (out : ModelOutput)
  | errorRecord (msg : String)
deriving DecidableEq, Repr

/-- The "success" entry of the orchestrator's cad_result dict. -/
def CadResult.successFlag : CadResult → Bool
  | .result out => out.successFlag
  | .errorRecord _ => false

/-- Orchestrator wrapper around compare_models, src/main.py lines 948-955:
the files are read and compared inside a try block and any raised engine
error is converted into a record with success false and the exception
text as error message. -/
def runComparison (subFile refFile : Option Shape) (tol : ℚ) : CadResult :=
  match read_step_file subFile with
  | .error e => .errorRecord (errMessage e)
  | .ok s =>
    match read_step_file refFile with
    | .error e => .errorRecord (errMessage e)
    | .ok r =>
      match compareModels s r tol with
      | .error e => .errorRecord (errMessage e)
      | .ok out => .result out

/-- Property dict of the FreeCAD-based get_step_properties
(comparisonService.py lines 67-131); principal_moments is empty when the
file contains no solid. -/
structure StepProps where
  dimensions : ℚ × ℚ × ℚ
  volume : ℚ
  topology : Topology
  principal_moments : List ℚ
deriving DecidableEq, Repr

/-- Feedback dict of compare_step_models; the message and pct entries of the
Python dicts carry no information used by any claim and are omitted. -/
structure StepFeedback where
  dimensions : FeatEntry
  volume : FeatEntry
  principal_moments : FeatEntry
  topology : FeatEntry
  global_score : ℚ
  success : Bool
deriving DecidableEq, Repr

/-- Mean dimension percentage of compare_step_models (lines 142-144). -/
def stepDimsScore (sub ref : StepProps) : ℚ :=
  (pctScore sub.dimensions.1 ref.dimensions.1 +
   pctScore sub.dimensions.2.1 ref.dimensions.2.1 +
   pctScore sub.dimensions.2.2 ref.dimensions.2.2) / 3

/-- Volume percentage of compare_step_models (line 156). -/
def stepVolScore (sub ref : StepProps) : ℚ := pctScore sub.volume ref.volume

/-- Binary topology score of compare_step_models (lines 190-191). -/
def stepTopoScore (sub ref : StepProps) : ℚ :=
  if sub.topology = ref.topology then 100 else 0

/-- Shell-only test of compare_step_models (line 170): either side has an
empty or all-zero principal-moments list. -/
def stepShellOnly (sub ref : StepProps) : Bool :=
  (sub.principal_moments.isEmpty || decide (sub.principal_moments = [0, 0, 0])) ||
  (ref.principal_moments.isEmpty || decide (ref.principal_moments = [0, 0, 0]))

/-- Condition of the elif branch that evaluates principal moments in
compare_step_models (line 174): not shell-only, both lists nonempty and of
equal length. -/
def stepPmIncluded (sub ref : StepProps) : Bool :=
  !stepShellOnly sub ref &&
  (!sub.principal_moments.isEmpty && !ref.principal_moments.isEmpty &&
    decide (sub.principal_moments.length = ref.principal_moments.length))

/-- Mean principal-moments percentage of compare_step_models (lines
176-177). -/
def stepPmScore (sub ref : StepProps) : ℚ :=
  let pcts := (sub.principal_moments.zip ref.principal_moments).map (fun p => pctScore p.1 p.2)
  pcts.sum / (pcts.length : ℚ)

/-- compare_step_models, comparisonService.py lines 133-208 (unused FreeCAD
path).  Each evaluated feature adds its score to the running score and 100
to the running total; the principal-moments feature is skipped (ok None,
total stays at 300) when either side is shell-only, and the success
threshold is a flat 80. -/
def compare_step_models (sub ref : StepProps) (tol : ℚ) : StepFeedback :=
  let dScore := stepDimsScore sub ref
  let dOk := okRel sub.dimensions.1 ref.dimensions.1 tol &&
             okRel sub.dimensions.2.1 ref.dimensions.2.1 tol &&
             okRel sub.dimensions.2.2 ref.dimensions.2.2 tol
  let vScore := stepVolScore sub ref
  let vOk := okRel sub.volume ref.volume tol
  let included := stepPmIncluded sub ref
  let pmEntry : FeatEntry :=
    if included then
      ⟨some ((sub.principal_moments.zip ref.principal_moments).all (fun p => okRel p.1 p.2 tol)),
       stepPmScore sub ref⟩
    else ⟨none, 0⟩
  let tScore := stepTopoScore sub ref
  let score := dScore + vScore + (if included then stepPmScore sub ref else 0) + tScore
  let total : ℚ := 100 + 100 + (if included then 100 else 0) + 100
  let g := rnd1 (score / total * 100)
  { dimensions := ⟨some dOk, dScore⟩
  , volume := ⟨some vOk, vScore⟩
  , principal_moments := pmEntry
  , topology := ⟨some (decide (sub.topology = ref.topology)), tScore⟩
  , global_score := g
  , success := decide (80 ≤ g) }

/-- One OpenCascade shape built from a DXF entity by create_occ_geometry:
its planar bounding-box corners and the number of BRep edges it contains
(1 for a line, circle or arc edge; the number of segments for a polyline
wire). -/
structure Shape2D where
  minX : ℚ
  minY : ℚ
  maxX : ℚ
  maxY : ℚ
  numEdges : ℕ
deriving DecidableEq, Repr

/-- compare_geometry, occCompareDXF.py lines 156-190: fails when any of the
four planar box-corner coordinates differ by more than the tolerance, and
otherwise succeeds exactly when the two shapes contain equally many edges. -/
def compare_geometry (s1 s2 : Shape2D) (tol : ℚ) : Bool :=
  if tol < |s1.minX - s2.minX| ∨ tol < |s1.minY - s2.minY| ∨
     tol < |s1.maxX - s2.maxX| ∨ tol < |s1.maxY - s2.maxY| then
    false
  else
    s1.numEdges == s2.numEdges

/-- A DXF input file: missing on disk, unreadable by ezdxf, or a parsed
document whose entities were converted into OpenCascade shapes. -/
inductive DxfFile where
  | missing
  | unreadable (msg : String)
  | doc (shapes : List Shape2D)
deriving DecidableEq, Repr

/-- Result dict of compare_dxf_drawings; the entity-count tables are not
used by any claim and are omitted. -/
structure DxfResult where
  success : Bool
  error : Option String
  message : String
  matched_shapes : Option ℕ
  total_reference : Option ℕ
  total_submitted : Option ℕ
  score : Option ℚ
deriving DecidableEq, Repr

/-- The matching loop of compare_dxf_drawings (lines 234-239): each
reference shape counts once when some submitted shape matches it (the inner
loop breaks at the first match and no submitted shape is consumed). -/
def matchCount (refs subs : List Shape2D) (tol : ℚ) : ℕ :=
  match refs with
  | [] => 0
  | r :: rest =>
      (if subs.any (fun s => compare_geometry r s tol) then 1 else 0) + matchCount rest subs tol

/-- Error record shape shared by the failure branches of
compare_dxf_drawings. -/
def dxfErrorResult (err msg : String) : DxfResult :=
  { success := false, error := some err, message := msg
  , matched_shapes := none, total_reference := none, total_submitted := none, score := none }

/-- compare_dxf_drawings, occCompareDXF.py lines 192-275: existence of the
reference then the submitted file is checked, each file is parsed inside its
own try block, and on success the greedy bounding-box matching produces
matched_shapes and the score round(matched/total*100, 2) (0 when the
reference has no shapes).  Every failure path returns a success-false
record; nothing escapes the outer try block. -/
def compare_dxf_drawings (subF refF : DxfFile) (tol : ℚ) : DxfResult :=
  match refF with
  | DxfFile.missing =>
      dxfErrorResult "Fichier de reference introuvable" "Le fichier de reference n'existe pas"
  | DxfFile.unreadable rmsg =>
      match subF with
      | DxfFile.missing =>
          dxfErrorResult "Fichier soumis introuvable" "Le fichier soumis n'existe pas"
      | _ => dxfErrorResult "Erreur de lecture du fichier de reference" rmsg
  | DxfFile.doc refShapes =>
      match subF with
      | DxfFile.missing =>
          dxfErrorResult "Fichier soumis introuvable" "Le fichier soumis n'existe pas"
      | DxfFile.unreadable smsg =>
          dxfErrorResult "Erreur de lecture du fichier soumis" smsg
      | DxfFile.doc subShapes =>
          let matched := matchCount refShapes subShapes tol
          let score : ℚ :=
            if refShapes.length = 0 then 0
            else rnd2 ((matched : ℚ) / (refShapes.length : ℚ) * 100)
          { success := true, error := none, message := "DXF comparison complete"
          , matched_shapes := some matched
          , total_reference := some refShapes.length
          , total_submitted := some subShapes.length
          , score := some score }

/-- Spec-side scoring primitive, written from the specification's words
pct(s, r) = 100 - min(100, 100*abs(s-r) / max(abs(r), 1e-6)), for
comparison against the pctScore the code computes. -/
def specPct (s r : ℚ) : ℚ :=
  100 - min 100 (100 * |s - r| / max |r| (1/1000000))

/-- Spec-side aggregated centre of mass, written from the specification's
words that for multiple shells the properties are additively aggregated:
the area-weighted mean of the shell centres of mass, for comparison against
the centre of mass the code returns. -/
def specAggregatedCom (shells : List ShellRaw) : ℚ × ℚ × ℚ :=
  let a := (shells.map ShellRaw.area).sum
  (((shells.map (fun s => s.area * s.com.1)).sum) / a,
   ((shells.map (fun s => s.area * s.com.2.1)).sum) / a,
   ((shells.map (fun s => s.area * s.com.2.2)).sum) / a)

/-- Spec-side DXF matching criterion, written from the claim's words: a
bounding-box match within tol on all four box-corner coordinates, with no
condition on edge counts. -/
def specBBoxMatch (s1 s2 : Shape2D) (tol : ℚ) : Bool :=
  decide (|s1.minX - s2.minX| ≤ tol) && decide (|s1.minY - s2.minY| ≤ tol) &&
  decide (|s1.maxX - s2.maxX| ≤ tol) && decide (|s1.maxY - s2.maxY| ≤ tol)

/-- Unit cube bounding box used by the concrete examples below. -/
def bb01 : BBox := ⟨0, 0, 0, 1, 1, 1⟩

/-- Concrete one-face shell of area 2 centred at the origin. -/
def shellA : ShellRaw := ⟨2, (0, 0, 0), bb01, 1, 4, 4, (0, 0, 0)⟩

/-- Concrete one-face shell of area 2 with centre of mass at x = 1. -/
def shellB : ShellRaw := ⟨2, (1, 0, 0), bb01, 1, 4, 4, (0, 0, 0)⟩

/-- Concrete one-face shell of area 3 centred at the origin. -/
def shellC : ShellRaw := ⟨3, (0, 0, 0), bb01, 1, 4, 4, (0, 0, 0)⟩

/-- Concrete unit-area shell centred at the origin. -/
def shellP : ShellRaw := ⟨1, (0, 0, 0), bb01, 1, 4, 4, (0, 0, 0)⟩

/-- Concrete unit-area shell with centre of mass at x = 2. -/
def shellQ : ShellRaw := ⟨1, (2, 0, 0), bb01, 1, 4, 4, (0, 0, 0)⟩

/-- Concrete unit-volume solid with box topology. -/
def solidA : SolidRaw := ⟨1, (0, 0, 0), bb01, 6, 12, 8, [1, 1, 1]⟩

/-- Shell-only submitted shape with two shells of total area 4. -/
def shapeSubC1 : Shape := ⟨[], [shellA, shellB], []⟩

/-- Shell-only reference shape with two shells of total area 6. -/
def shapeRefC1 : Shape := ⟨[], [shellC, shellC], []⟩

/-- Shape holding a single solid. -/
def shapeSolid : Shape := ⟨[solidA], [], []⟩

/-- Shape holding a single shell. -/
def shapeShell : Shape := ⟨[], [shellA], []⟩

/-- Shape holding two shells with distinct centres of mass. -/
def shapeMulti : Shape := ⟨[], [shellP, shellQ], []⟩

/-- Shape with two solids (assembly example). -/
def shapeAsm : Shape := ⟨[solidA, solidA], [], []⟩

/-- Shape with no solid, shell or face at all. -/
def shapeEmpty : Shape := ⟨[], [], []⟩

/-- DXF shape with one edge spanning the unit square box. -/
def lineShape : Shape2D := ⟨0, 0, 1, 1, 1⟩

/-- DXF shape with two edges spanning the same unit square box. -/
def polyShape : Shape2D := ⟨0, 0, 1, 1, 2⟩

/-- FreeCAD property record of a shell-only file: empty moments list. -/
def stepShellPropsW : StepProps := ⟨(1, 1, 1), 0, ⟨1, 4, 4⟩, []⟩

/-- An outer box contains an inner box componentwise. -/
def bbContains (outer inner : BBox) : Prop :=
  outer.xmin ≤ inner.xmin ∧ outer.ymin ≤ inner.ymin ∧ outer.zmin ≤ inner.zmin ∧
  inner.xmax ≤ outer.xmax ∧ inner.ymax ≤ outer.ymax ∧ inner.zmax ≤ outer.zmax

theorem pctScore_self (r : ℚ) : pctScore r r = 100 := by
  norm_num [pctScore]

theorem okRel_self (r tol : ℚ) (h : 0 ≤ tol) : okRel r r tol = true := by
  simp only [okRel, sub_self, abs_zero, decide_eq_true_eq]
  positivity

theorem zipSelf_all_okRel (tol : ℚ) (h : 0 ≤ tol) (l : List ℚ) :
    (l.zip l).all (fun p => okRel p.1 p.2 tol) = true := by
  induction l with
  | nil => rfl
  | cons x xs ih => simp [List.all_cons, okRel_self x tol h, ih]

theorem topoDiff_self (t : Topology) : topoDiff t t = 0 := by
  simp [topoDiff]

theorem rnd1_hundred : rnd1 100 = 100 := by
  norm_num [rnd1, rndTo, pyRound]

theorem measureOut_self (p : ShapeProps) (tol : ℚ)
    (hp : p.volume.isSome ∨ p.surface_area.isSome) :
    ∃ m, measureOut p p tol = Except.ok m ∧ m.internal = 100 := by
  rcases hv : p.volume with _ | v
  · rcases ha : p.surface_area with _ | a
    · rcases hp with hp | hp
      · rw [hv] at hp; simp at hp
      · rw [ha] at hp; simp at hp
    · refine ⟨⟨false, decide (|a - a| ≤ (tol * (3/2)) * max |a| 1),
        rnd1 (if topoDiff p.topology p.topology ≤ 6 then
          min 100 (pctScore a a * (11/10)) else pctScore a a),
        if topoDiff p.topology p.topology ≤ 6 then
          min 100 (pctScore a a * (11/10)) else pctScore a a⟩, ?_, ?_⟩
      · simp only [measureOut, hv, ha]
      · rw [topoDiff_self, pctScore_self]
        norm_num
  · refine ⟨⟨true, okRel v v tol, pctScore v v, pctScore v v⟩, ?_, pctScore_self v⟩
    simp only [measureOut, hv]

theorem dimsScoreVal_self (p : ShapeProps) : dimsScoreVal p p = 100 := by
  simp [dimsScoreVal, pctScore_self]
  norm_num

theorem comparePartMode_self (p : ShapeProps) (tol : ℚ) (h : 0 < tol)
    (hp : p.volume.isSome ∨ p.surface_area.isSome) :
    ∃ fb, comparePartMode p p tol = Except.ok fb ∧
      fb.global_score = 100 ∧ fb.success = true := by
  obtain ⟨m, hm, hint⟩ := measureOut_self p tol hp
  have hg : rnd1 ((dimsScoreVal p p + m.internal + topoScoreVal p p + pmScoreVal p p tol) / 4) = 100 := by
    rw [dimsScoreVal_self, hint, topoScoreVal, pmScoreVal, pmOkVal,
      zipSelf_all_okRel tol (le_of_lt h)]
    norm_num [rnd1_hundred]
  rcases hcp : comparePartMode p p tol with e | fb
  · rw [comparePartMode, hm] at hcp
    exact absurd hcp (by simp)
  · refine ⟨fb, rfl, ?_⟩
    simp only [comparePartMode, hm, Except.ok.injEq] at hcp
    subst hcp
    refine ⟨hg, ?_⟩
    show (if 5/100 ≤ tol then
        decide (70 ≤ rnd1 ((dimsScoreVal p p + m.internal + topoScoreVal p p + pmScoreVal p p tol) / 4))
      else if 1/100 ≤ tol then
        decide (75 ≤ rnd1 ((dimsScoreVal p p + m.internal + topoScoreVal p p + pmScoreVal p p tol) / 4))
      else
        decide (80 ≤ rnd1 ((dimsScoreVal p p + m.internal + topoScoreVal p p + pmScoreVal p p tol) / 4))) = true
    rw [hg]
    split
    · simp only [decide_eq_true_eq]; norm_num
    · split <;> simp only [decide_eq_true_eq] <;> norm_num

theorem mkMatch_self_ok (tol : ℚ) (h : 0 ≤ tol) (i : ℕ) (p : SolidProps) :
    matchAllOk (mkMatch tol i p p) = true := by
  simp [matchAllOk, mkMatch, okRel_self _ _ h]

theorem buildMatches_self_mem (tol : ℚ) (h : 0 ≤ tol) :
    ∀ (k : ℕ) (l : List SolidRaw) (m : MatchRec),
      m ∈ buildMatches tol k l l → matchAllOk m = true := by
  intro k l
  induction l generalizing k with
  | nil => intro m hm; simp [buildMatches] at hm
  | cons s ss ih =>
    intro m hm
    simp only [buildMatches, List.mem_cons] at hm
    rcases hm with hm | hm
    · rw [hm]; exact mkMatch_self_ok tol h k (get_solid_properties s)
    · exact ih (k + 1) m hm

theorem buildMatches_length (tol : ℚ) :
    ∀ (k : ℕ) (ss rs : List SolidRaw),
      (buildMatches tol k ss rs).length = min ss.length rs.length := by
  intro k ss
  induction ss generalizing k with
  | nil => intro rs; simp [buildMatches]
  | cons s ss ih =>
    intro rs
    cases rs with
    | nil => simp [buildMatches]
    | cons r rs => simp [buildMatches, ih (k + 1) rs, Nat.succ_min_succ]

theorem compareAssembly_self (l : List SolidRaw) (tol : ℚ) (h : 0 ≤ tol)
    (hl : 2 ≤ l.length) :
    (compareAssembly l l tol).global_score = 100 ∧
      (compareAssembly l l tol).success = true := by
  have hfilter : (buildMatches tol 0 l l).filter matchAllOk = buildMatches tol 0 l l :=
    List.filter_eq_self.mpr (fun m hm => buildMatches_self_mem tol h 0 l m hm)
  have hlen : (buildMatches tol 0 l l).length = l.length := by
    rw [buildMatches_length tol 0 l l, min_self]
  have hne : l.length ≠ 0 := by omega
  have hg : rnd1 ((((buildMatches tol 0 l l).filter matchAllOk).length : ℚ) /
      ((max (buildMatches tol 0 l l).length 1 : ℕ) : ℚ) * 100) = 100 := by
    rw [hfilter, hlen]
    have hmax : max l.length 1 = l.length := by omega
    rw [hmax, div_self (by exact_mod_cast hne), one_mul, rnd1_hundred]
  constructor
  · simp only [compareAssembly]
    exact hg
  · simp only [compareAssembly, hg]
    simp
    norm_num

theorem get_shape_properties_ok (sh : Shape)
    (hne : sh.solids ≠ [] ∨ sh.shells ≠ [] ∨ sh.faces ≠ []) :
    ∃ p, get_shape_properties sh = Except.ok p ∧
      (p.volume.isSome ∨ p.surface_area.isSome) := by
  rcases hs : sh.solids with _ | ⟨s, ss⟩
  · rcases hsh : sh.shells with _ | ⟨a, rest⟩
    · rcases hf : sh.faces with _ | ⟨f, fs⟩
      · exfalso; rcases hne with h | h | h <;> simp_all
      · refine ⟨get_shell_properties f, ?_, Or.inr (by simp [get_shell_properties])⟩
        simp [get_shape_properties, hs, hsh, hf]
    · cases rest with
      | nil =>
        refine ⟨get_shell_properties a, ?_, Or.inr (by simp [get_shell_properties])⟩
        simp [get_shape_properties, hs, hsh]
      | cons b rest2 =>
        refine ⟨multiShellProps a (b :: rest2), ?_, Or.inr (by simp [multiShellProps])⟩
        simp [get_shape_properties, hs, hsh]
  · refine ⟨solidShapeProps (get_solid_properties s), ?_, Or.inl (by simp [solidShapeProps])⟩
    simp [get_shape_properties, hs]

theorem buildMatches_getq (tol : ℚ) :
    ∀ (k i : ℕ) (ss rs : List SolidRaw),
      (buildMatches tol k ss rs).get? i =
        match ss.get? i, rs.get? i with
        | some s, some r =>
            some (mkMatch tol (k + i) (get_solid_properties s) (get_solid_properties r))
        | _, _ => none := by
  intro k i ss
  induction ss generalizing k i with
  | nil => intro rs; simp [buildMatches]
  | cons s ss ih =>
    intro rs
    cases rs with
    | nil =>
      cases hs : (s :: ss).get? i <;> simp [buildMatches, hs]
    | cons r rs =>
      cases i with
      | zero => simp [buildMatches]
      | succ j =>
        simp only [buildMatches, List.get?_cons_succ]
        rw [ih (k + 1) j rs]
        have : k + 1 + j = k + (j + 1) := by omega
        rw [this]

theorem matchCount_eq_countP (tol : ℚ) (subs : List Shape2D) :
    ∀ refs : List Shape2D,
      matchCount refs subs tol =
        refs.countP (fun r => subs.any (fun s => compare_geometry r s tol)) := by
  intro refs
  induction refs with
  | nil => simp [matchCount]
  | cons r rest ih =>
    rw [matchCount, ih, List.countP_cons]
    by_cases h : subs.any (fun s => compare_geometry r s tol) = true <;>
      (simp [h]; try omega)

theorem rnd2_zero : rnd2 0 = 0 := by
  norm_num [rnd2, rndTo, pyRound]

theorem foldl_add_eq_sum {M : Type} [AddCommMonoid M] (f : ShellRaw → M) :
    ∀ (l : List ShellRaw) (a : M), l.foldl (fun acc s => acc + f s) a = a + (l.map f).sum := by
  intro l
  induction l with
  | nil => intro a; simp
  | cons s ss ih => intro a; simp [ih, add_assoc]

theorem bbContains_bbUnion_left (a b : BBox) : bbContains (bbUnion a b) a := by
  simp [bbContains, bbUnion]

theorem bbContains_bbUnion_right (a b : BBox) : bbContains (bbUnion a b) b := by
  simp [bbContains, bbUnion]

theorem bbContains_trans (a b c : BBox) (hab : bbContains a b) (hbc : bbContains b c) :
    bbContains a c := by
  obtain ⟨h1, h2, h3, h4, h5, h6⟩ := hab
  obtain ⟨g1, g2, g3, g4, g5, g6⟩ := hbc
  exact ⟨le_trans h1 g1, le_trans h2 g2, le_trans h3 g3,
    le_trans g4 h4, le_trans g5 h5, le_trans g6 h6⟩

theorem bbContains_foldl (l : List ShellRaw) :
    ∀ (b0 : BBox),
      bbContains (l.foldl (fun b s => bbUnion b s.bbox) b0) b0 ∧
      ∀ s ∈ l, bbContains (l.foldl (fun b s => bbUnion b s.bbox) b0) s.bbox := by
  induction l with
  | nil =>
    intro b0
    refine ⟨⟨le_refl _, le_refl _, le_refl _, le_refl _, le_refl _, le_refl _⟩, ?_⟩
    intro s hs; simp at hs
  | cons x xs ih =>
    intro b0
    obtain ⟨h1, h2⟩ := ih (bbUnion b0 x.bbox)
    have hstep : ∀ y : BBox, ((x :: xs).foldl (fun b s => bbUnion b s.bbox) b0) =
        xs.foldl (fun b s => bbUnion b s.bbox) (bbUnion b0 x.bbox) := by
      intro y; simp [List.foldl_cons]
    refine ⟨?_, ?_⟩
    · rw [hstep bb01]
      exact bbContains_trans _ _ _ h1 (bbContains_bbUnion_left b0 x.bbox)
    · intro s hs
      rcases List.mem_cons.mp hs with hs | hs
      · subst hs
        rw [hstep bb01]
        exact bbContains_trans _ _ _ h1 (bbContains_bbUnion_right b0 s.bbox)
      · rw [hstep bb01]
        exact h2 s hs

theorem getLastD_cons_getLast (s1 : ShellRaw) (l : List ShellRaw) (h : l ≠ []) :
    l.getLastD s1 = (s1 :: l).getLast (List.cons_ne_nil s1 l) := by
  rw [List.getLast_cons h, List.getLastD_eq_getLast?, List.getLast?_eq_getLast l h]
  rfl

/-- Claim C2 (corrected): the per-feature relative score of the part and
assembly comparators is pctScore, whose denominator is the reference
magnitude when it exceeds 1e-6 and the constant 1 (not 1e-6) otherwise; the
pass flag is exactly the claimed relative test, and the assembly volume
entries and part dimension mean are built from these primitives. -/
theorem c2_relative_score_formulas :
    (∀ s r : ℚ, |r| ≤ 1/1000000 → pctScore s r = 100 - min 100 (100 * |s - r|)) ∧
    (∀ s r : ℚ, 1/1000000 < |r| → pctScore s r = 100 - min 100 (100 * |s - r| / |r|)) ∧
    (∀ s r tol : ℚ, okRel s r tol = true ↔ |s - r| ≤ tol * max |r| 1) ∧
    (∀ (tol : ℚ) (i : ℕ) (sp rp : SolidProps),
      (mkMatch tol i sp rp).volume_score = rnd1 (pctScore sp.volume rp.volume) ∧
      (mkMatch tol i sp rp).volume_ok = okRel sp.volume rp.volume tol) ∧
    (∀ sub ref : ShapeProps, dimsScoreVal sub ref =
      (pctScore sub.dimensions.1 ref.dimensions.1 +
       pctScore sub.dimensions.2.1 ref.dimensions.2.1 +
       pctScore sub.dimensions.2.2 ref.dimensions.2.2) / 3) := by
  refine ⟨?_, ?_, ?_, ?_, ?_⟩
  · intro s r h
    rw [pctScore, if_neg (not_lt.mpr h), div_one]
  · intro s r h
    rw [pctScore, if_pos h]
  · intro s r tol
    simp [okRel]
  · intro tol i sp rp
    exact ⟨rfl, rfl⟩
  · intro sub ref
    rfl

/-- Counterexample to claim C2 as stated: at reference value 0 the code's
denominator is 1, giving score 50 for a deviation of one half, while the
claimed formula with denominator max(abs r, 1e-6) = 1e-6 gives 0. -/
theorem c2_counterexample : pctScore (1/2) 0 = 50 ∧ specPct (1/2) 0 = 0 := by
  constructor
  · norm_num [pctScore, min_def, abs_div, abs_one, abs_two]
  · norm_num [specPct, min_def, max_def, abs_div, abs_one, abs_two]

/-- Witness for claim C2: both hypothesised branches of the corrected
formula instantiated at concrete values. -/
theorem c2_witness :
    pctScore 5 0 = 100 - min 100 (100 * |(5 : ℚ) - 0|) ∧
    pctScore 3 2 = 100 - min 100 (100 * |(3 : ℚ) - 2| / |(2 : ℚ)|) :=
  ⟨c2_relative_score_formulas.1 5 0 (by norm_num),
   c2_relative_score_formulas.2.1 3 2 (by norm_num)⟩

/-- Claim C3 (corrected): when both property dicts carry a volume the
volumes are compared with the standard primitive; when the submitted dict
has no volume and both dicts carry a surface area, the areas are compared
with pass tolerance 1.5*tol and the at-most-6 topology-difference bonus
scales the score by 1.1 capped at 100; but a mixed solid/shell pair, where
the side lacking a surface-area key is read, raises a KeyError instead of
comparing anything. -/
theorem c3_volume_or_area_branches :
    ∀ (sub ref : ShapeProps) (tol : ℚ),
      (∀ vs vr, sub.volume = some vs → ref.volume = some vr →
        measureOut sub ref tol = Except.ok
          ⟨true, okRel vs vr tol, pctScore vs vr, pctScore vs vr⟩) ∧
      (∀ sa ra, sub.volume = none → sub.surface_area = some sa →
        ref.surface_area = some ra →
        measureOut sub ref tol = Except.ok
          ⟨false, decide (|sa - ra| ≤ (tol * (3/2)) * max |ra| 1),
           rnd1 (if topoDiff sub.topology ref.topology ≤ 6
             then min 100 (pctScore sa ra * (11/10)) else pctScore sa ra),
           if topoDiff sub.topology ref.topology ≤ 6
             then min 100 (pctScore sa ra * (11/10)) else pctScore sa ra⟩) ∧
      ((sub.volume = none ∨ ref.volume = none) → sub.surface_area = none →
        measureOut sub ref tol = Except.error CmpError.keyError) ∧
      (∀ sa, (sub.volume = none ∨ ref.volume = none) → sub.surface_area = some sa →
        ref.surface_area = none →
        measureOut sub ref tol = Except.error CmpError.keyError) := by
  intro sub ref tol
  refine ⟨?_, ?_, ?_, ?_⟩
  · intro vs vr h1 h2
    simp only [measureOut, h1, h2]
  · intro sa ra h0 h1 h2
    simp only [measureOut, h0, h1, h2]
  · intro h h1
    rcases h with h | h
    · cases hv : ref.volume <;> simp only [measureOut, h, h1, hv]
    · cases hv : sub.volume <;> simp only [measureOut, h, h1, hv]
  · intro sa h h1 h2
    rcases h with h | h
    · cases hv : ref.volume <;> simp only [measureOut, h, h1, h2, hv]
    · cases hv : sub.volume <;> simp only [measureOut, h, h1, h2, hv]

/-- Counterexample to claim C3 as stated: comparing a solid submitted file
against a shell reference file reaches the surface-area branch, whose read
of the missing surface_area key aborts with a KeyError, so no area
comparison is produced. -/
theorem c3_counterexample :
    compareModels shapeSolid shapeShell (1/1000) = Except.error CmpError.keyError := by
  norm_num [compareModels, shapeSolid, shapeShell, get_shape_properties, comparePartMode,
    measureOut, solidShapeProps, get_solid_properties, get_shell_properties, solidA, shellA]

/-- Witness for claim C3: the solid-solid branch and the mixed error branch
instantiated at concrete property records. -/
theorem c3_witness :
    measureOut (solidShapeProps (get_solid_properties solidA))
        (solidShapeProps (get_solid_properties solidA)) 1 =
      Except.ok ⟨true, okRel (rnd3 1) (rnd3 1) 1, pctScore (rnd3 1) (rnd3 1),
        pctScore (rnd3 1) (rnd3 1)⟩ ∧
    measureOut (solidShapeProps (get_solid_properties solidA)) (get_shell_properties shellA) 1 =
      Except.error CmpError.keyError := by
  refine ⟨(c3_volume_or_area_branches _ _ 1).1 (rnd3 1) (rnd3 1) rfl rfl, ?_⟩
  exact (c3_volume_or_area_branches _ _ 1).2.2.1 (Or.inr rfl) rfl

/-- Part feedback of comparing the area-2 shell against the area-3 shell at
tolerance 1/1000 (used as a concrete instance below). -/
def c1fbW : PartFeedback :=
  { dimensions := ⟨some true, 100⟩
  , volume := none
  , surface_area := some ⟨some false, 733/10⟩
  , topology := ⟨some true, 100⟩
  , principal_moments := ⟨some true, 100⟩
  , global_score := 933/10
  , success := true }

/-- Part feedback of comparing the area-2 shell against itself at tolerance
1/1000 (used as a concrete instance below). -/
def c4fbW : PartFeedback :=
  { dimensions := ⟨some true, 100⟩
  , volume := none
  , surface_area := some ⟨some true, 100⟩
  , topology := ⟨some true, 100⟩
  , principal_moments := ⟨some true, 100⟩
  , global_score := 100
  , success := true }

/-- Claim C1 (corrected): in the live part-mode compare the
principal-moments feature always carries a boolean ok flag and is always
counted, so the global score is the rounded mean of the four feature scores
even for shell-only inputs; the claimed exclusion (ok None, denominator of
three features) exists only in the unused FreeCAD-based compare_step_models,
whose shell-only placeholder test is an empty or all-zero moments list. -/
theorem c1_pm_always_counted :
    (∀ (sub ref : ShapeProps) (tol : ℚ) (fb : PartFeedback),
      comparePartMode sub ref tol = Except.ok fb →
        (∃ b, fb.principal_moments.ok = some b) ∧
        ∃ m, measureOut sub ref tol = Except.ok m ∧
          fb.global_score =
            rnd1 ((dimsScoreVal sub ref + m.internal + topoScoreVal sub ref +
              pmScoreVal sub ref tol) / 4)) ∧
    (∀ (sub ref : StepProps) (tol : ℚ), stepShellOnly sub ref = true →
      (compare_step_models sub ref tol).principal_moments.ok = none ∧
      (compare_step_models sub ref tol).global_score =
        rnd1 ((stepDimsScore sub ref + stepVolScore sub ref + stepTopoScore sub ref)
          / 300 * 100)) := by
  constructor
  · intro sub ref tol fb h
    cases hm : measureOut sub ref tol with
    | error e =>
      rw [comparePartMode, hm] at h
      exact absurd h (by simp)
    | ok m =>
      simp only [comparePartMode, hm, Except.ok.injEq] at h
      subst h
      exact ⟨⟨pmOkVal sub ref tol, rfl⟩, m, rfl, rfl⟩
  · intro sub ref tol h
    have hinc : stepPmIncluded sub ref = false := by simp [stepPmIncluded, h]
    constructor
    · simp [compare_step_models, hinc]
    · simp only [compare_step_models, hinc, Bool.false_eq_true, if_false]
      norm_num

/-- Counterexample to claim C1 as stated: a shell-only pair whose principal
moments are the degenerate area placeholders (4,4,4) versus (6,6,6) gets a
boolean ok = false (not None) on the principal-moments feature, which stays
in the denominator: the global score is 68.3, the mean over 4 features,
where the claimed 3-feature mean would be 91.1. -/
theorem c1_counterexample :
    compareModels shapeSubC1 shapeRefC1 (1/1000) =
      Except.ok (ModelOutput.part
        { dimensions := ⟨some true, 100⟩
        , volume := none
        , surface_area := some ⟨some false, 733/10⟩
        , topology := ⟨some true, 100⟩
        , principal_moments := ⟨some false, 0⟩
        , global_score := 683/10
        , success := false }) := by
  norm_num [compareModels, shapeSubC1, shapeRefC1, get_shape_properties, comparePartMode,
    measureOut, multiShellProps, shellA, shellB, shellC, bb01, bbUnion, bbDims, rnd3T, rnd3,
    rnd1, rndTo, pyRound, dimsScoreVal, dimsOkAll, topoScoreVal, pmOkVal, pmScoreVal,
    pctScore, okRel, topoDiff, List.getLastD]

/-- Witness for claim C1: the part-mode conjunct instantiated at concrete
shell properties and the FreeCAD conjunct instantiated at a shell-only
record. -/
theorem c1_witness :
    c1fbW.principal_moments.ok.isSome = true ∧
    (compare_step_models stepShellPropsW stepShellPropsW 1).principal_moments.ok = none := by
  constructor
  · obtain ⟨⟨b, hb⟩, _⟩ := c1_pm_always_counted.1 (get_shell_properties shellA)
      (get_shell_properties shellC) (1/1000) c1fbW (by
        norm_num [comparePartMode, measureOut, get_shell_properties, shellA, shellC, bb01,
          bbDims, rnd3T, rnd3, rnd1, rndTo, pyRound, dimsScoreVal, dimsOkAll, topoScoreVal,
          pmOkVal, pmScoreVal, pctScore, okRel, topoDiff, c1fbW])
    rw [hb]; rfl
  · exact (c1_pm_always_counted.2 stepShellPropsW stepShellPropsW 1 rfl).1

/-- Success flag of a part comparison as a function of its global score,
read off the definition. -/
theorem comparePartMode_success_def (sub ref : ShapeProps) (tol : ℚ) (fb : PartFeedback)
    (h : comparePartMode sub ref tol = Except.ok fb) :
    fb.success = (if 5/100 ≤ tol then decide (70 ≤ fb.global_score)
      else if 1/100 ≤ tol then decide (75 ≤ fb.global_score)
      else decide (80 ≤ fb.global_score)) := by
  cases hm : measureOut sub ref tol with
  | error e =>
    rw [comparePartMode, hm] at h
    exact absurd h (by simp)
  | ok m =>
    simp only [comparePartMode, hm, Except.ok.injEq] at h
    subst h
    rfl

/-- Claim C4 (confirmed): the part-mode success verdict is tiered by
tolerance: at tol of at least 5e-2 the pass mark is a global score of at
least 70, between 1e-2 and 5e-2 it is 75, and below 1e-2 it is 80. -/
theorem c4_success_thresholds :
    ∀ (sub ref : ShapeProps) (tol : ℚ) (fb : PartFeedback),
      comparePartMode sub ref tol = Except.ok fb →
        ((5/100 ≤ tol → (fb.success = true ↔ 70 ≤ fb.global_score)) ∧
         (1/100 ≤ tol → tol < 5/100 → (fb.success = true ↔ 75 ≤ fb.global_score)) ∧
         (tol < 1/100 → (fb.success = true ↔ 80 ≤ fb.global_score))) := by
  intro sub ref tol fb h
  have hs := comparePartMode_success_def sub ref tol fb h
  refine ⟨?_, ?_, ?_⟩
  · intro ht
    rw [hs, if_pos ht, decide_eq_true_eq]
  · intro h1 h2
    rw [hs, if_neg (not_le.mpr h2), if_pos h1, decide_eq_true_eq]
  · intro h1
    rw [hs, if_neg (not_le.mpr (lt_trans h1 (by norm_num))), if_neg (not_le.mpr h1),
      decide_eq_true_eq]

/-- Witness for claim C4: the strict tier instantiated at a concrete
self-comparison whose feedback has global score 100 and success true. -/
theorem c4_witness : c4fbW.success = true ↔ 80 ≤ c4fbW.global_score := by
  have h := c4_success_thresholds (get_shell_properties shellA) (get_shell_properties shellA)
    (1/1000) c4fbW (by
      norm_num [comparePartMode, measureOut, get_shell_properties, shellA, bb01,
        bbDims, rnd3T, rnd3, rnd1, rndTo, pyRound, dimsScoreVal, dimsOkAll, topoScoreVal,
        pmOkVal, pmScoreVal, pctScore, okRel, topoDiff, c4fbW])
  exact h.2.2 (by norm_num)

/-- Claim C5 (confirmed): the assembly global score is
round(100*nOk/max(pairCount, 1), 1) where nOk counts pairs passing all
three per-pair checks, and success holds exactly when the global score is
at least 80 and the submitted and reference solid counts agree; when the
counts differ success is false. -/
theorem c5_assembly_scoring :
    ∀ (subs refs : List SolidRaw) (tol : ℚ),
      (compareAssembly subs refs tol).global_score =
        rnd1 (100 *
          (((compareAssembly subs refs tol).components_match.filter matchAllOk).length : ℚ) /
          ((max (compareAssembly subs refs tol).components_match.length 1 : ℕ) : ℚ)) ∧
      ((compareAssembly subs refs tol).success = true ↔
        (80 ≤ (compareAssembly subs refs tol).global_score ∧ subs.length = refs.length)) ∧
      (subs.length ≠ refs.length → (compareAssembly subs refs tol).success = false) := by
  intro subs refs tol
  refine ⟨?_, ?_, ?_⟩
  · simp only [compareAssembly]
    congr 1
    ring
  · simp only [compareAssembly]
    simp [Bool.and_eq_true, decide_eq_true_eq]
  · intro h
    simp only [compareAssembly]
    simp [h]

/-- Witness for claim C5: a one-solid submission against a two-solid
reference fails regardless of the per-pair scores. -/
theorem c5_witness : (compareAssembly [solidA] [solidA, solidA] (1/1000)).success = false :=
  (c5_assembly_scoring [solidA] [solidA, solidA] (1/1000)).2.2 (by simp)

/-- Claim C6 (confirmed): assembly mode is entered exactly when either side
enumerates more than one solid, and the i-th submitted solid is paired with
the i-th reference solid for i below the shorter length, unpaired solids
producing no match record. -/
theorem c6_assembly_dispatch :
    ∀ (sub ref : Shape) (tol : ℚ),
      ((1 < sub.solids.length ∨ 1 < ref.solids.length) ↔
        ∃ afb, compareModels sub ref tol = Except.ok (ModelOutput.assembly afb)) ∧
      (∀ afb, compareModels sub ref tol = Except.ok (ModelOutput.assembly afb) →
        afb.components_match.length = min sub.solids.length ref.solids.length ∧
        ∀ i : ℕ, afb.components_match.get? i =
          match sub.solids.get? i, ref.solids.get? i with
          | some s, some r =>
              some (mkMatch tol i (get_solid_properties s) (get_solid_properties r))
          | _, _ => none) := by
  intro sub ref tol
  by_cases hc : 1 < ref.solids.length ∨ 1 < sub.solids.length
  · refine ⟨⟨fun _ => ⟨compareAssembly sub.solids ref.solids tol,
      by simp [compareModels, hc]⟩, fun _ => Or.symm hc⟩, ?_⟩
    intro afb h
    simp only [compareModels, if_pos hc, Except.ok.injEq, ModelOutput.assembly.injEq] at h
    subst h
    constructor
    · exact buildMatches_length tol 0 sub.solids ref.solids
    · intro i
      have hq := buildMatches_getq tol 0 i sub.solids ref.solids
      simpa using hq
  · have hno : ∀ afb, ¬ compareModels sub ref tol = Except.ok (ModelOutput.assembly afb) := by
      intro afb h
      simp only [compareModels, if_neg hc] at h
      split at h
      · exact absurd h (by simp)
      · split at h
        · exact absurd h (by simp)
        · split at h
          · exact absurd h (by simp)
          · exact absurd h (by simp)
    refine ⟨⟨fun hh => absurd hh (by tauto), ?_⟩, fun afb h => absurd h (hno afb)⟩
    rintro ⟨afb, h⟩
    exact absurd h (hno afb)

/-- Witness for claim C6: the two-solid assembly self-comparison has two
match records, the second pairing the second solids of both sides. -/
theorem c6_witness :
    (compareAssembly shapeAsm.solids shapeAsm.solids (1/1000)).components_match.length = 2 ∧
    (compareAssembly shapeAsm.solids shapeAsm.solids (1/1000)).components_match.get? 1 =
      some (mkMatch (1/1000) 1 (get_solid_properties solidA) (get_solid_properties solidA)) := by
  have h := (c6_assembly_dispatch shapeAsm shapeAsm (1/1000)).2
    (compareAssembly shapeAsm.solids shapeAsm.solids (1/1000))
    (by simp [compareModels, shapeAsm])
  refine ⟨by rw [h.1]; rfl, ?_⟩
  have h2 := h.2 1
  simpa [shapeAsm] using h2

/-- Claim C7 (corrected): in the multi-shell branch the surface area,
face/edge/vertex counts and principal-moments placeholder are additively
aggregated over all shells and the bounding box is the union of the shell
boxes, but the returned centre of mass is that of the last enumerated
shell, not an aggregate, because each kernel call overwrites the shared
properties accumulator. -/
theorem c7_multishell_aggregation :
    ∀ (s1 s2 : ShellRaw) (rest fcs : List ShellRaw),
      ∃ p, get_shape_properties ⟨[], s1 :: s2 :: rest, fcs⟩ = Except.ok p ∧
        p.surface_area = some (rnd3 (((s1 :: s2 :: rest).map ShellRaw.area).sum)) ∧
        p.topology = ⟨((s1 :: s2 :: rest).map ShellRaw.faces).sum,
          ((s1 :: s2 :: rest).map ShellRaw.edges).sum,
          ((s1 :: s2 :: rest).map ShellRaw.vertices).sum⟩ ∧
        p.principal_moments = [rnd3 (((s1 :: s2 :: rest).map ShellRaw.area).sum),
          rnd3 (((s1 :: s2 :: rest).map ShellRaw.area).sum),
          rnd3 (((s1 :: s2 :: rest).map ShellRaw.area).sum)] ∧
        p.dimensions =
          rnd3T (bbDims ((s2 :: rest).foldl (fun b s => bbUnion b s.bbox) s1.bbox)) ∧
        (∀ s ∈ s1 :: s2 :: rest,
          bbContains ((s2 :: rest).foldl (fun b s => bbUnion b s.bbox) s1.bbox) s.bbox) ∧
        p.center_of_mass =
          rnd3T ((s1 :: s2 :: rest).getLast (List.cons_ne_nil s1 (s2 :: rest))).com := by
  intro s1 s2 rest fcs
  refine ⟨multiShellProps s1 (s2 :: rest), by simp [get_shape_properties], ?_, ?_, ?_, ?_, ?_, ?_⟩
  · simp only [multiShellProps, Option.some.injEq]
    rw [foldl_add_eq_sum ShellRaw.area, zero_add]
  · simp only [multiShellProps]
    rw [foldl_add_eq_sum ShellRaw.faces, foldl_add_eq_sum ShellRaw.edges,
      foldl_add_eq_sum ShellRaw.vertices]
    simp
  · simp only [multiShellProps]
    rw [foldl_add_eq_sum ShellRaw.area, zero_add]
  · rfl
  · intro s hs
    rcases List.mem_cons.mp hs with hs | hs
    · subst hs
      exact (bbContains_foldl (s2 :: rest) s.bbox).1
    · exact (bbContains_foldl (s2 :: rest) s1.bbox).2 s hs
  · simp only [multiShellProps]
    rw [getLastD_cons_getLast s1 (s2 :: rest) (List.cons_ne_nil s2 rest)]

/-- Counterexample to claim C7 as stated: two unit-area shells centred at
x = 0 and x = 2 yield a returned centre of mass (2,0,0), the second shell's
own centre, while any additive aggregation over the shells (the
area-weighted mean) gives (1,0,0). -/
theorem c7_counterexample :
    Except.map ShapeProps.center_of_mass (get_shape_properties shapeMulti) =
      Except.ok ((2 : ℚ), (0 : ℚ), (0 : ℚ)) ∧
    specAggregatedCom [shellP, shellQ] = ((1 : ℚ), (0 : ℚ), (0 : ℚ)) ∧
    ((2 : ℚ), (0 : ℚ), (0 : ℚ)) ≠ ((1 : ℚ), (0 : ℚ), (0 : ℚ)) := by
  refine ⟨?_, ?_, by norm_num [Prod.ext_iff]⟩
  · norm_num [shapeMulti, get_shape_properties, multiShellProps, shellP, shellQ, bb01,
      rnd3T, rnd3, rndTo, pyRound, List.getLastD, Except.map]
  · norm_num [specAggregatedCom, shellP, shellQ]

/-- Witness for claim C7: the bounding-box containment conjunct
instantiated at the two concrete shells. -/
theorem c7_witness : bbContains (bbUnion shellP.bbox shellQ.bbox) shellQ.bbox := by
  obtain ⟨p, hp, ha, ht, hpm, hd, hcont, hcom⟩ := c7_multishell_aggregation shellP shellQ [] []
  have h := hcont shellQ (by simp)
  simpa using h

theorem get_shape_properties_error_eq (sh : Shape) (e : CmpError)
    (h : get_shape_properties sh = Except.error e) : e = CmpError.noGeometry := by
  simp only [get_shape_properties] at h
  split at h
  · exact absurd h (by simp)
  · split at h
    · exact absurd h (by simp)
    · exact absurd h (by simp)
    · split at h
      · exact absurd h (by simp)
      · simp only [Except.error.injEq] at h
        exact h.symm

/-- Claim C8 (confirmed): a missing or unreadable STEP file and a shape
with no solid, shell or face on either side both surface as a
success-false record with a nonempty error message at the orchestrator's
comparison step, whose try/except converts every engine exception into
such a record; the DXF comparator returns such records directly for
missing or unreadable drawings. -/
theorem c8_nonfatal_error_records :
    ∀ (subF refF : Option Shape) (tol : ℚ),
      ((subF = none ∨ refF = none) →
        runComparison subF refF tol = CadResult.errorRecord (errMessage CmpError.fileRead) ∧
        (runComparison subF refF tol).successFlag = false ∧
        errMessage CmpError.fileRead ≠ "") ∧
      (∀ s r, subF = some s → refF = some r → s.solids = [] → s.shells = [] → s.faces = [] →
        ¬ 1 < r.solids.length →
        runComparison subF refF tol = CadResult.errorRecord (errMessage CmpError.noGeometry) ∧
        (runComparison subF refF tol).successFlag = false ∧
        errMessage CmpError.noGeometry ≠ "") ∧
      (∀ s r, subF = some s → refF = some r → r.solids = [] → r.shells = [] → r.faces = [] →
        ¬ 1 < s.solids.length →
        runComparison subF refF tol = CadResult.errorRecord (errMessage CmpError.noGeometry) ∧
        (runComparison subF refF tol).successFlag = false ∧
        errMessage CmpError.noGeometry ≠ "") ∧
      (∀ s r e, subF = some s → refF = some r → compareModels s r tol = Except.error e →
        runComparison subF refF tol = CadResult.errorRecord (errMessage e) ∧
        (runComparison subF refF tol).successFlag = false ∧
        errMessage e ≠ "") ∧
      (∀ (subD refD : DxfFile),
        (refD = DxfFile.missing ∨ subD = DxfFile.missing ∨
          (∃ m, refD = DxfFile.unreadable m) ∨ (∃ m, subD = DxfFile.unreadable m)) →
        (compare_dxf_drawings subD refD tol).success = false ∧
        (compare_dxf_drawings subD refD tol).error ≠ none) := by
  intro subF refF tol
  have hgen : ∀ s r e, subF = some s → refF = some r →
      compareModels s r tol = Except.error e →
      runComparison subF refF tol = CadResult.errorRecord (errMessage e) ∧
      (runComparison subF refF tol).successFlag = false ∧
      errMessage e ≠ "" := by
    intro s r e hs hr hcm
    subst hs; subst hr
    have hrun : runComparison (some s) (some r) tol = CadResult.errorRecord (errMessage e) := by
      simp [runComparison, read_step_file, hcm]
    exact ⟨hrun, by rw [hrun]; rfl, by cases e <;> decide⟩
  refine ⟨?_, ?_, ?_, hgen, ?_⟩
  · intro h
    rcases subF with _ | s
    · exact ⟨rfl, rfl, by decide⟩
    · rcases h with h | h
      · exact absurd h (by simp)
      · subst h
        exact ⟨rfl, rfl, by decide⟩
  · intro s r hs hr h1 h2 h3 h4
    refine hgen s r CmpError.noGeometry hs hr ?_
    have hc : ¬ (1 < r.solids.length ∨ 1 < s.solids.length) := by
      rintro (h | h)
      · exact h4 h
      · rw [h1] at h; simp at h
    simp [compareModels, if_neg hc, get_shape_properties, h1, h2, h3]
    omega
  · intro s r hs hr h1 h2 h3 h4
    refine hgen s r CmpError.noGeometry hs hr ?_
    have hc : ¬ (1 < r.solids.length ∨ 1 < s.solids.length) := by
      rintro (h | h)
      · rw [h1] at h; simp at h
      · exact h4 h
    have hrefErr : get_shape_properties r = Except.error CmpError.noGeometry := by
      simp [get_shape_properties, h1, h2, h3]
    simp only [compareModels, if_neg hc]
    cases hx : get_shape_properties s with
    | error e2 =>
      have he : e2 = CmpError.noGeometry := get_shape_properties_error_eq s e2 hx
      simp [hx, he]
    | ok sp => simp [hx, hrefErr]
  · intro subD refD h
    cases refD with
    | missing => exact ⟨rfl, by simp [compare_dxf_drawings, dxfErrorResult]⟩
    | unreadable m =>
      cases subD with
      | missing => exact ⟨rfl, by simp [compare_dxf_drawings, dxfErrorResult]⟩
      | unreadable m2 => exact ⟨rfl, by simp [compare_dxf_drawings, dxfErrorResult]⟩
      | doc l => exact ⟨rfl, by simp [compare_dxf_drawings, dxfErrorResult]⟩
    | doc l =>
      cases subD with
      | missing => exact ⟨rfl, by simp [compare_dxf_drawings, dxfErrorResult]⟩
      | unreadable m2 => exact ⟨rfl, by simp [compare_dxf_drawings, dxfErrorResult]⟩
      | doc l2 =>
        exfalso
        rcases h with h | h | ⟨m, h⟩ | ⟨m, h⟩ <;> simp at h

/-- Witness for claim C8: a missing submitted STEP file, a geometry-free
reference shape behind a valid solid submission, and a missing DXF drawing,
all at concrete inputs. -/
theorem c8_witness :
    runComparison none (some shapeSolid) 1 =
      CadResult.errorRecord (errMessage CmpError.fileRead) ∧
    runComparison (some shapeSolid) (some shapeEmpty) 1 =
      CadResult.errorRecord (errMessage CmpError.noGeometry) ∧
    (compare_dxf_drawings DxfFile.missing (DxfFile.doc []) 1).success = false := by
  refine ⟨((c8_nonfatal_error_records none (some shapeSolid) 1).1 (Or.inl rfl)).1, ?_, ?_⟩
  · exact ((c8_nonfatal_error_records (some shapeSolid) (some shapeEmpty) 1).2.2.1
      shapeSolid shapeEmpty rfl rfl rfl rfl rfl (by simp [shapeSolid])).1
  · exact ((c8_nonfatal_error_records none (some shapeSolid) 1).2.2.2.2 DxfFile.missing
      (DxfFile.doc []) (Or.inr (Or.inl rfl))).1

/-- Claim C9 (corrected): a reference edge is matched exactly when some
submitted edge agrees on all four box-corner coordinates within tol AND
contains the same number of BRep edges (the claim omitted the edge-count
condition); matchedShapes counts reference edges with at least one match,
the first match is taken greedily with no reuse prevention, and the score
is round(100*matched/max(totalReference,1), 2). -/
theorem c9_drawing_matching :
    ∀ (refs subs : List Shape2D) (tol : ℚ),
      (∀ r s : Shape2D, compare_geometry r s tol =
        (specBBoxMatch r s tol && (r.numEdges == s.numEdges))) ∧
      ((compare_dxf_drawings (DxfFile.doc subs) (DxfFile.doc refs) tol).matched_shapes =
        some (refs.countP (fun r => subs.any (fun s => compare_geometry r s tol)))) ∧
      ((compare_dxf_drawings (DxfFile.doc subs) (DxfFile.doc refs) tol).score =
        some (rnd2 (100 *
          (refs.countP (fun r => subs.any (fun s => compare_geometry r s tol)) : ℚ) /
          ((max refs.length 1 : ℕ) : ℚ)))) := by
  intro refs subs tol
  refine ⟨?_, ?_, ?_⟩
  · intro r s
    simp only [compare_geometry, specBBoxMatch]
    split
    · rename_i h
      rcases h with h | h | h | h <;> simp [not_le.mpr h]
    · rename_i h
      push_neg at h
      obtain ⟨h1, h2, h3, h4⟩ := h
      simp [h1, h2, h3, h4]
  · simp only [compare_dxf_drawings]
    rw [matchCount_eq_countP]
  · simp only [compare_dxf_drawings]
    by_cases hz : refs.length = 0
    · have hnil : refs = [] := List.length_eq_zero.mp hz
      subst hnil
      simp [matchCount, rnd2_zero]
    · rw [if_neg hz, matchCount_eq_countP, Option.some.injEq]
      have hmax : max refs.length 1 = refs.length := by omega
      rw [hmax]
      congr 1
      ring

/-- Counterexample to claim C9 as stated: a reference line edge and a
submitted two-segment polyline share the same bounding box within
tolerance, so the claimed bbox-only criterion matches them, yet the code
reports zero matched shapes and score 0 because the edge counts differ. -/
theorem c9_counterexample :
    (compare_dxf_drawings (DxfFile.doc [polyShape]) (DxfFile.doc [lineShape])
      (1/1000)).matched_shapes = some 0 ∧
    (compare_dxf_drawings (DxfFile.doc [polyShape]) (DxfFile.doc [lineShape])
      (1/1000)).score = some 0 ∧
    specBBoxMatch lineShape polyShape (1/1000) = true := by
  refine ⟨?_, ?_, ?_⟩
  · norm_num [compare_dxf_drawings, matchCount, compare_geometry, lineShape, polyShape]
  · norm_num [compare_dxf_drawings, matchCount, compare_geometry, lineShape, polyShape,
      rnd2_zero]
  · norm_num [specBBoxMatch, lineShape, polyShape]

/-- Claim C10 (confirmed): comparing any non-degenerate shape against
itself at any positive tolerance yields global score 100 and success. -/
theorem c10_self_comparison :
    ∀ (sh : Shape) (tol : ℚ), 0 < tol →
      (sh.solids ≠ [] ∨ sh.shells ≠ [] ∨ sh.faces ≠ []) →
      ∃ out, compareModels sh sh tol = Except.ok out ∧
        out.globalScoreVal = 100 ∧ out.successFlag = true := by
  intro sh tol htol hne
  by_cases hc : 1 < sh.solids.length ∨ 1 < sh.solids.length
  · have hc2 : 1 < sh.solids.length := by tauto
    obtain ⟨hg, hs⟩ := compareAssembly_self sh.solids tol (le_of_lt htol) (by omega)
    refine ⟨ModelOutput.assembly (compareAssembly sh.solids sh.solids tol), ?_, hg, hs⟩
    simp [compareModels, hc2]
  · obtain ⟨p, hp, hpv⟩ := get_shape_properties_ok sh hne
    obtain ⟨fb, hfb, hg, hs⟩ := comparePartMode_self p tol htol hpv
    refine ⟨ModelOutput.part fb, ?_, hg, hs⟩
    simp only [compareModels, if_neg hc, hp, hfb]

/-- Witness for claim C10: the concrete one-solid shape compared against
itself at tolerance 1/1000. -/
theorem c10_witness :
    Except.map ModelOutput.successFlag (compareModels shapeSolid shapeSolid (1/1000)) =
      Except.ok true ∧
    Except.map ModelOutput.globalScoreVal (compareModels shapeSolid shapeSolid (1/1000)) =
      Except.ok 100 := by
  obtain ⟨out, ho, hg, hs⟩ := c10_self_comparison shapeSolid (1/1000) (by norm_num)
    (Or.inl (by simp [shapeSolid]))
  rw [ho]
  constructor <;> simp [Except.map, hs, hg]

end MecaFlow
